import Mathlib

set_option maxRecDepth 40000

/-!
Shallow embedding of the OTA-over-MQTT example (job topic/message protocol in
`src/lib/iot-core-jobs/source/core_jobs.c`, block-download session and message
router in `src/demo/ota_demo.c`).

Conventions of the embedding:
* A C string is modelled as its `List Char` of bytes up to (and excluding) the
  NUL terminator; the modelled strings are assumed NUL-free, which holds for
  every topic, thing name, job id, token and version the program handles.
* A `pointer, length` pair argument is modelled as `Option (List Char)` where
  `none` is a NULL pointer and the length is the list's length.
* A fixed-size zero-initialised stack buffer that the code fills by `memcpy`
  and then reads back as a NUL-terminated string is modelled by `fixedCStr`:
  the operation is defined (`some`) exactly when the payload together with a
  terminating NUL fits the declared capacity, and is `none` when the C code
  would touch bytes outside the array (an out-of-bounds write for payloads
  longer than the array, an out-of-bounds read through the missing terminator
  for a payload that exactly fills it).
* Functions whose C original can reach undefined behaviour (out-of-bounds
  array access) or a failed `assert` return `Option`; `none` marks the input
  on which the C program has no defined result (it aborts or corrupts memory).
* Machine integers are modelled as `Nat`; the `uint32_t` counters of the
  download session wrap modulo `2 ^ 32` exactly where the C code increments or
  decrements them.
-/

/-- Capacity constant `MAX_JOB_ID_LENGTH` (64). It is referenced by
`core_jobs.c` and defined to `64U` in `ota_demo.c`; the jobs header itself is
not among the sources, and the spec's data model agrees on "bounded string
(≤64 bytes)". -/
def MAX_JOB_ID_LENGTH : Nat := 64

/-- Topic scratch-buffer size `TOPIC_BUFFER_SIZE` (256) from `core_jobs.c`. -/
def TOPIC_BUFFER_SIZE : Nat := 256

/-- `MAX_THING_NAME_LENGTH` (128) from `core_jobs.c`. -/
def MAX_THING_NAME_LENGTH : Nat := 128

/-- `UPDATE_JOB_STATUS_MAX_LENGTH` (8) from `core_jobs.c`. -/
def UPDATE_JOB_STATUS_MAX_LENGTH : Nat := 8

/-- Models `char buf[cap] = { 0 }; memcpy(buf, s, s.length)` followed by uses
of `buf` as a NUL-terminated string: defined iff the payload and a terminating
NUL fit in `cap` bytes. -/
def fixedCStr (cap : Nat) (s : List Char) : Option (List Char) :=
  if s.length + 1 ≤ cap then some s else none

/-- Models `snprintf` truncation into a buffer whose `size` argument is
`size`: at most `size - 1` characters are kept. -/
def snprintfTrunc (size : Nat) (s : List Char) : List Char :=
  s.take (size - 1)

/-- The `jobStatusString` table of `core_jobs.c` (indexed by the
`JobStatus_t` enumeration value). `jobStatusStringLengths` holds exactly the
lengths of these entries, so it is represented by `List.length`. -/
def jobStatusStrings : List (List Char) :=
  ["QUEUED".toList, "IN_PROGRESS".toList, "FAILED".toList,
   "SUCCEEDED".toList, "REJECTED".toList]

/-- The `jobUpdateStatusString` table of `core_jobs.c` (indexed by the
`JobUpdateStatus_t` enumeration value: `accepted` = 0, `rejected` = 1). -/
def jobUpdateStatusStrings : List (List Char) :=
  ["accepted".toList, "rejected".toList]

/-- The `JobStatus_t` enumeration. Modelled from the spec: the jobs header
(`core_jobs.h`) is not among the sources; the spec's data model lists the
states as `enum\x7bQueued, InProgress, Failed, Succeeded, Rejected\x7d`, in
the order of the `jobStatusString` table, and the unit test pairs `Succeeded`
with `"SUCCEEDED"`. -/
inductive JobStatus
  | Queued
  | InProgress
  | Failed
  | Succeeded
  | Rejected
deriving DecidableEq

/-- The numeric value of a `JobStatus_t` enumerator. -/
def JobStatus.toIndex : JobStatus → Nat
  | .Queued => 0
  | .InProgress => 1
  | .Failed => 2
  | .Succeeded => 3
  | .Rejected => 4

/-- The wire word of a `JobStatus_t` enumerator (its `jobStatusString`
entry). -/
def JobStatus.text : JobStatus → List Char
  | .Queued => "QUEUED".toList
  | .InProgress => "IN_PROGRESS".toList
  | .Failed => "FAILED".toList
  | .Succeeded => "SUCCEEDED".toList
  | .Rejected => "REJECTED".toList

/-- Embeds `isThingnameTopicMatch` of `core_jobs.c`. `thingName` is the
device's stored identity delivered by `mqttWrapper_getThingName` (which
asserts it is non-empty and copies it, NUL included, into a local
`char[MAX_THING_NAME_LENGTH + 1]`); the suffix is first memcpy'd into a local
`char[MAX_JOB_ID_LENGTH + 1]`, then the expected topic
`"$aws/things/" ++ thingName ++ suffix` is assembled by `snprintf` into a
buffer of size `TOPIC_BUFFER_SIZE` and compared with the candidate: first by
`strnlen` length equality, then bytewise by `strncmp` over `topicLength`
bytes. -/
def isThingnameTopicMatch (thingName : List Char) (topic : Option (List Char))
    (topicSuffix : List Char) : Option Bool :=
  match topic with
  | none => some false
  | some t =>
    if t.length = 0 then some false
    else
      if thingName.isEmpty then none
      else
        match fixedCStr (MAX_THING_NAME_LENGTH + 1) thingName with
        | none => none
        | some tn =>
          match fixedCStr (MAX_JOB_ID_LENGTH + 1) topicSuffix with
          | none => none
          | some suffixTerminated =>
            let expected :=
              snprintfTrunc TOPIC_BUFFER_SIZE
                ("$aws/things/".toList ++ tn ++ suffixTerminated)
            some (expected.length == t.length && expected == t)

/-- Embeds `coreJobs_isStartNextAccepted` of `core_jobs.c`. -/
def coreJobs_isStartNextAccepted (thingName : List Char)
    (topic : Option (List Char)) : Option Bool :=
  isThingnameTopicMatch thingName topic "/jobs/start-next/accepted".toList

/-- Embeds `coreJobs_isJobUpdateStatus` of `core_jobs.c`. The job id is
memcpy'd into a local `char[MAX_JOB_ID_LENGTH + 1]`, the status word (from
`jobUpdateStatusString[expectedStatus]`, an unchecked array access) into a
local `char[UPDATE_JOB_STATUS_MAX_LENGTH + 1]`; the suffix
`"/jobs/" ++ jobId ++ "/update/" ++ status` is assembled by `snprintf` into
`char[TOPIC_BUFFER_SIZE - MAX_THING_NAME_LENGTH - 4]` and passed to
`isThingnameTopicMatch`. -/
def coreJobs_isJobUpdateStatus (thingName : List Char)
    (topic : Option (List Char)) (jobId : List Char)
    (expectedStatus : Nat) : Option Bool :=
  match fixedCStr (MAX_JOB_ID_LENGTH + 1) jobId with
  | none => none
  | some jobIdTerminated =>
    match jobUpdateStatusStrings.get? expectedStatus with
    | none => none
    | some statusStr =>
      match fixedCStr (UPDATE_JOB_STATUS_MAX_LENGTH + 1) statusStr with
      | none => none
      | some updateStatusString =>
        let suffix :=
          snprintfTrunc (TOPIC_BUFFER_SIZE - MAX_THING_NAME_LENGTH - 4)
            ("/jobs/".toList ++ jobIdTerminated ++ "/update/".toList ++
              updateStatusString)
        isThingnameTopicMatch thingName topic suffix

/-- Embeds `getStartNextPendingJobExecutionTopic` of `core_jobs.c`: on a
non-NULL, non-empty thing name that fits (`bufferSize >= 28 + length`) it
writes `"$aws/things/" ++ thingname ++ "/jobs/start-next"` and returns its
length, otherwise it writes nothing and returns length 0 (the empty list). -/
def getStartNextPendingJobExecutionTopic (thingname : Option (List Char))
    (bufferSize : Nat) : List Char :=
  match thingname with
  | none => []
  | some tn =>
    if 0 < tn.length ∧ 28 + tn.length ≤ bufferSize then
      "$aws/things/".toList ++ tn ++ "/jobs/start-next".toList
    else []

/-- Embeds `getStartNextPendingJobExecutionMsg` of `core_jobs.c`: on a
non-NULL, non-empty client token that fits (`bufferSize >= 18 + length`) it
produces `\x7b"clientToken":"<token>"\x7d`, otherwise the empty result. -/
def getStartNextPendingJobExecutionMsg (clientToken : Option (List Char))
    (bufferSize : Nat) : List Char :=
  match clientToken with
  | none => []
  | some ct =>
    if 0 < ct.length ∧ 18 + ct.length ≤ bufferSize then
      "\x7b\"clientToken\":\"".toList ++ ct ++ "\"\x7d".toList
    else []

/-- Embeds `getUpdateJobExecutionTopic` of `core_jobs.c`: on non-NULL,
non-empty thing name and job id that fit (`bufferSize >= 25 + lengths`) it
produces `"$aws/things/" ++ thingname ++ "/jobs/" ++ jobId ++ "/update"`,
otherwise the empty result. -/
def getUpdateJobExecutionTopic (thingname jobId : Option (List Char))
    (bufferSize : Nat) : List Char :=
  match thingname, jobId with
  | some tn, some jid =>
    if 0 < tn.length ∧ 0 < jid.length ∧
        25 + tn.length + jid.length ≤ bufferSize then
      "$aws/things/".toList ++ tn ++ "/jobs/".toList ++ jid ++
        "/update".toList
    else []
  | _, _ => []

/-- Embeds `getUpdateJobExecutionMsg` of `core_jobs.c`. The guard evaluates
`expectedVersion != NULL && expectedVersionLength > 0` first (so a NULL or
empty version short-circuits to the empty result before any table access) and
then reads `jobStatusStringLengths[status]` with no range check: a status
outside the table is an out-of-bounds read, modelled as `none`. On success it
produces `\x7b"status":"<STATUS>","expectedVersion":"<version>"\x7d`. -/
def getUpdateJobExecutionMsg (status : Nat) (expectedVersion : Option (List Char))
    (bufferSize : Nat) : Option (List Char) :=
  match expectedVersion with
  | none => some []
  | some v =>
    if v.length = 0 then some []
    else
      match jobStatusStrings.get? status with
      | none => none
      | some s =>
        if 34 + v.length + s.length ≤ bufferSize then
          some ("\x7b\"status\":\"".toList ++ s ++
                "\",\"expectedVersion\":\"".toList ++ v ++ "\"\x7d".toList)
        else some []

/-- Demo configuration constant `CONFIG_BLOCK_SIZE` (256) from `ota_demo.c`. -/
def CONFIG_BLOCK_SIZE : Nat := 256

/-- Demo configuration constant `CONFIG_MAX_FILE_SIZE` (65536) from
`ota_demo.c`; it is both the download-buffer capacity and the bound the
block-arrival `assert` checks against. -/
def CONFIG_MAX_FILE_SIZE : Nat := 65536

/-- Modulus of the `uint32_t` counters of `ota_demo.c`. -/
def UINT32_MOD : Nat := 2 ^ 32

/-- The two configuration macros of `ota_demo.c` gathered as an explicit
configuration value (the spec's `FileTransferDescriptor.blockSize` is "a fixed
configured constant"; the demo instantiates it as `demoConfig`). -/
structure OtaConfig where
  blockSize : Nat
  maxFileSize : Nat

/-- The demo's configuration: `CONFIG_BLOCK_SIZE = 256`,
`CONFIG_MAX_FILE_SIZE = 65536`. -/
def demoConfig : OtaConfig :=
  { blockSize := CONFIG_BLOCK_SIZE, maxFileSize := CONFIG_MAX_FILE_SIZE }

/-- The download-session state of `ota_demo.c`: the four global counters
(`uint32_t` except the `uint8_t` file id, all modelled as `Nat`) plus the
bytes so far written to `downloadedData[0 .. totalBytesReceived)`. -/
structure OtaSession where
  numOfBlocksRemaining : Nat
  currentBlockOffset : Nat
  currentFileId : Nat
  totalBytesReceived : Nat
  downloadedData : List Nat
deriving DecidableEq

/-- One call of `ucRequestDataBlock(fileId, blockSize, offset, count)` made to
the external block-transfer collaborator. -/
structure BlockRequest where
  fileId : Nat
  blockSize : Nat
  offset : Nat
  numberOfBlocksRequested : Nat
deriving DecidableEq

/-- The observable outcome of one block arrival: the updated session, the
block requests issued during the call, and whether `otaDemo_finishDownload`
(completion) was signalled. -/
structure ArrivalOutcome where
  session : OtaSession
  requests : List BlockRequest
  finishedDownload : Bool
deriving DecidableEq

/-- Embeds `applicationSuppliedFunction_processAfrOtaDocument` of
`ota_demo.c`: computes `numOfBlocksRemaining = fileSize / blockSize`, plus one
if the division leaves a remainder, zeroes `currentBlockOffset` and
`totalBytesReceived`, records the file id, and requests block 0 with a block
count of `NUM_OF_BLOCKS_REQUESTED = 1`. (The sum `fileSize / blockSize + 1`
cannot exceed `UINT32_MAX` for a `uint32_t` file size, so the `uint32_t`
assignment cannot wrap.) -/
def applicationSuppliedFunction_processAfrOtaDocument (cfg : OtaConfig)
    (fileId fileSize : Nat) : OtaSession × BlockRequest :=
  ({ numOfBlocksRemaining :=
       fileSize / cfg.blockSize + (if fileSize % cfg.blockSize > 0 then 1 else 0),
     currentBlockOffset := 0,
     currentFileId := fileId,
     totalBytesReceived := 0,
     downloadedData := [] },
   { fileId := fileId, blockSize := cfg.blockSize, offset := 0,
     numberOfBlocksRequested := 1 })

/-- Embeds `otaDemo_handleMqttStreamsBlockArrived` of `ota_demo.c`. The call
begins with `assert(totalBytesReceived + payloadLength < CONFIG_MAX_FILE_SIZE)`
(strict `<`): when the condition fails the process aborts before the copy,
modelled as `none`. Otherwise the payload is memcpy'd to
`downloadedData + totalBytesReceived`, the byte counter advances, the block
counter decrements (`uint32_t` wrap made explicit); at zero the download
finishes (`otaDemo_finishDownload`), else the offset advances and the next
block is requested. -/
def otaDemo_handleMqttStreamsBlockArrived (cfg : OtaConfig) (s : OtaSession)
    (payload : List Nat) : Option ArrivalOutcome :=
  if s.totalBytesReceived + payload.length < cfg.maxFileSize then
    let total := (s.totalBytesReceived + payload.length) % UINT32_MOD
    let remaining := (s.numOfBlocksRemaining + (UINT32_MOD - 1)) % UINT32_MOD
    let data := s.downloadedData ++ payload
    if remaining = 0 then
      some { session := { s with totalBytesReceived := total,
                                 numOfBlocksRemaining := remaining,
                                 downloadedData := data },
             requests := [], finishedDownload := true }
    else
      let offset := (s.currentBlockOffset + 1) % UINT32_MOD
      some { session := { s with totalBytesReceived := total,
                                 numOfBlocksRemaining := remaining,
                                 currentBlockOffset := offset,
                                 downloadedData := data },
             requests := [{ fileId := s.currentFileId,
                            blockSize := cfg.blockSize,
                            offset := offset,
                            numberOfBlocksRequested := 1 }],
             finishedDownload := false }
  else none

/-- Iterates `otaDemo_handleMqttStreamsBlockArrived` over a list of arriving
payloads, accumulating every block request issued and counting the completion
signals; `none` as soon as one arrival aborts. -/
def feedBlocks (cfg : OtaConfig) (s : OtaSession) :
    List (List Nat) → Option (OtaSession × List BlockRequest × Nat)
  | [] => some (s, [], 0)
  | p :: ps =>
    (otaDemo_handleMqttStreamsBlockArrived cfg s p).bind fun out =>
      (feedBlocks cfg out.session ps).map fun r =>
        (r.1, out.requests ++ r.2.1,
         (if out.finishedDownload then 1 else 0) + r.2.2)

/-- Ceiling division, the `blocksRemaining = ceil(totalSize / blockSize)` of
the spec. -/
def ceilDiv (a b : Nat) : Nat := (a + b - 1) / b

/-- The well-sized run of a download: block `i` of a `totalSize`-byte file cut
into `blockSize`-byte blocks carries `min blockSize (totalSize - i * blockSize)`
bytes (full blocks, a short final block). Payload bytes are immaterial to the
counters, so zero bytes are used. -/
def expectedPayloads (blockSize totalSize n : Nat) : List (List Nat) :=
  (List.range n).map (fun i => List.replicate (min blockSize (totalSize - i * blockSize)) 0)

/-- The job-lifecycle state of `ota_demo.c`: the contents of the 64-byte
zero-initialised `globalJobId` buffer (empty list = all zero, no job
active). -/
structure OtaJobState where
  globalJobId : List Char
deriving DecidableEq

/-- Embeds `otaDemo_handleJobsStartNextAccepted` of `ota_demo.c`. If
`globalJobId[0] == 0` (no active job) the job id is `strncpy`'d into the
64-byte `globalJobId` buffer (in bounds only for `jobIdLength ≤ 64`, else
`none`) and the result of the external `handleJobDoc` collaborator (passed
here as the oracle `handleJobDocResult`) is returned; otherwise the call is
ignored: the state is untouched and `false` is returned. -/
def otaDemo_handleJobsStartNextAccepted (st : OtaJobState) (jobId : List Char)
    (handleJobDocResult : Bool) : Option (OtaJobState × Bool) :=
  if st.globalJobId.isEmpty then
    if jobId.length ≤ MAX_JOB_ID_LENGTH then
      some ({ globalJobId := jobId }, handleJobDocResult)
    else none
  else
    some (st, false)

/-- The two dispatchers `otaDemo_handleIncomingMQTTMessage` can consult. -/
inductive OtaDispatcher
  | jobs
  | streams
deriving DecidableEq

/-- Embeds `otaDemo_handleIncomingMQTTMessage` of `ota_demo.c`: the inbound
message is first offered to the jobs dispatch
(`coreJobsMQTTAPI_handleIncomingMQTTMessage`), then — thanks to the
short-circuit of `handled || ...` — to the streams dispatch
(`mqttStreams_handleIncomingMessage`) only when the jobs dispatch did not
handle it. Both collaborators are external, so they enter as oracle functions;
the result records the returned boolean and the consultation order. -/
def otaDemo_handleIncomingMQTTMessage
    (coreJobsHandler mqttStreamsHandler : List Char → List Nat → Bool)
    (topic : List Char) (message : List Nat) : Bool × List OtaDispatcher :=
  let handled := coreJobsHandler topic message
  if handled then (true, [OtaDispatcher.jobs])
  else (mqttStreamsHandler topic message, [OtaDispatcher.jobs, OtaDispatcher.streams])

theorem UINT32_MOD_eq : UINT32_MOD = 4294967296 := by norm_num [UINT32_MOD]

theorem blocks_eq_ceilDiv (f b : Nat) (hb : 0 < b) :
    f / b + (if f % b > 0 then 1 else 0) = ceilDiv f b := by
  unfold ceilDiv
  have hmod := Nat.div_add_mod f b
  rcases Nat.eq_zero_or_pos (f % b) with h | h
  · have h1 : f + b - 1 = b * (f / b) + (b - 1) := by omega
    have hz : (b - 1) / b = 0 := Nat.div_eq_of_lt (by omega)
    rw [h1, Nat.mul_add_div hb, hz]
    simp [h]
  · have hlt := Nat.mod_lt f hb
    have h1 : f + b - 1 = b * (f / b + 1) + (f % b - 1) := by
      rw [Nat.mul_succ]; omega
    have hz : (f % b - 1) / b = 0 := Nat.div_eq_of_lt (by omega)
    rw [h1, Nat.mul_add_div hb, hz]
    simp [h]

theorem ceilDiv_pos (f b : Nat) (hb : 0 < b) (hf : 0 < f) : 0 < ceilDiv f b := by
  unfold ceilDiv
  exact Nat.div_pos (by omega) hb

theorem ceilDiv_le_self (f b : Nat) (hb : 0 < b) : ceilDiv f b ≤ f := by
  unfold ceilDiv
  have h2 : f ≤ f * b := Nat.le_mul_of_pos_right f hb
  have h3 : f + b - 1 ≤ f * b + (b - 1) := by omega
  have h4 : (f * b + (b - 1)) / b = f + (b - 1) / b := by
    rw [Nat.mul_comm, Nat.mul_add_div hb]
  have hz : (b - 1) / b = 0 := Nat.div_eq_of_lt (by omega)
  have h5 : (f + b - 1) / b ≤ (f * b + (b - 1)) / b := Nat.div_le_div_right h3
  omega

theorem le_ceilDiv_mul (f b : Nat) (hb : 0 < b) : f ≤ ceilDiv f b * b := by
  unfold ceilDiv
  have hdm := Nat.div_add_mod (f + b - 1) b
  have hmlt := Nat.mod_lt (f + b - 1) hb
  have hcomm : (f + b - 1) / b * b = b * ((f + b - 1) / b) := Nat.mul_comm _ _
  omega

theorem sum_min_blocks (b f : Nat) :
    ∀ n, ((List.range n).map (fun i => min b (f - i * b))).sum = min f (n * b)
  | 0 => by simp
  | n + 1 => by
    rw [List.range_succ, List.map_append, List.sum_append, sum_min_blocks b f n]
    simp only [List.map_cons, List.map_nil, List.sum_cons, List.sum_nil, Nat.succ_mul]
    omega


theorem step_nonfinal (cfg : OtaConfig) (s : OtaSession) (p : List Nat)
    (hM : cfg.maxFileSize ≤ UINT32_MOD)
    (hassert : s.totalBytesReceived + p.length < cfg.maxFileSize)
    (hm : 2 ≤ s.numOfBlocksRemaining) (hm2 : s.numOfBlocksRemaining ≤ UINT32_MOD)
    (ho : s.currentBlockOffset + 1 < UINT32_MOD) :
    otaDemo_handleMqttStreamsBlockArrived cfg s p =
      some { session := { s with totalBytesReceived := s.totalBytesReceived + p.length,
                                 numOfBlocksRemaining := s.numOfBlocksRemaining - 1,
                                 currentBlockOffset := s.currentBlockOffset + 1,
                                 downloadedData := s.downloadedData ++ p },
             requests := [{ fileId := s.currentFileId, blockSize := cfg.blockSize,
                            offset := s.currentBlockOffset + 1,
                            numberOfBlocksRequested := 1 }],
             finishedDownload := false } := by
  have hU := UINT32_MOD_eq
  unfold otaDemo_handleMqttStreamsBlockArrived
  rw [if_pos hassert]
  have hrem : (s.numOfBlocksRemaining + (UINT32_MOD - 1)) % UINT32_MOD
      = s.numOfBlocksRemaining - 1 := by
    have h1 : s.numOfBlocksRemaining + (UINT32_MOD - 1)
        = (s.numOfBlocksRemaining - 1) + UINT32_MOD := by omega
    rw [h1, Nat.add_mod_right, Nat.mod_eq_of_lt (by omega)]
  have htot : (s.totalBytesReceived + p.length) % UINT32_MOD
      = s.totalBytesReceived + p.length := Nat.mod_eq_of_lt (by omega)
  have hoff : (s.currentBlockOffset + 1) % UINT32_MOD
      = s.currentBlockOffset + 1 := Nat.mod_eq_of_lt (by omega)
  rw [hrem, htot, hoff, if_neg (by omega)]

theorem step_final (cfg : OtaConfig) (s : OtaSession) (p : List Nat)
    (hM : cfg.maxFileSize ≤ UINT32_MOD)
    (hassert : s.totalBytesReceived + p.length < cfg.maxFileSize)
    (hm : s.numOfBlocksRemaining = 1) :
    otaDemo_handleMqttStreamsBlockArrived cfg s p =
      some { session := { s with totalBytesReceived := s.totalBytesReceived + p.length,
                                 numOfBlocksRemaining := 0,
                                 downloadedData := s.downloadedData ++ p },
             requests := [], finishedDownload := true } := by
  have hU := UINT32_MOD_eq
  unfold otaDemo_handleMqttStreamsBlockArrived
  rw [if_pos hassert]
  have hrem : (s.numOfBlocksRemaining + (UINT32_MOD - 1)) % UINT32_MOD = 0 := by
    rw [hm]
    have h1 : 1 + (UINT32_MOD - 1) = UINT32_MOD := by omega
    rw [h1, Nat.mod_self]
  have htot : (s.totalBytesReceived + p.length) % UINT32_MOD
      = s.totalBytesReceived + p.length := Nat.mod_eq_of_lt (by omega)
  rw [hrem, htot, if_pos rfl]

theorem feedBlocks_running (cfg : OtaConfig) :
    ∀ (ps : List (List Nat)) (s : OtaSession),
      ps.length < s.numOfBlocksRemaining →
      s.numOfBlocksRemaining ≤ UINT32_MOD →
      s.currentBlockOffset + ps.length < UINT32_MOD →
      s.totalBytesReceived + (ps.map List.length).sum < cfg.maxFileSize →
      cfg.maxFileSize ≤ UINT32_MOD →
      feedBlocks cfg s ps =
        some ({ numOfBlocksRemaining := s.numOfBlocksRemaining - ps.length,
                currentBlockOffset := s.currentBlockOffset + ps.length,
                currentFileId := s.currentFileId,
                totalBytesReceived := s.totalBytesReceived + (ps.map List.length).sum,
                downloadedData := s.downloadedData ++ ps.flatten },
              (List.range ps.length).map
                (fun i => { fileId := s.currentFileId, blockSize := cfg.blockSize,
                            offset := s.currentBlockOffset + 1 + i,
                            numberOfBlocksRequested := 1 }),
              0)
  | [], s => by
    intro h1 h2 h3 h4 h5
    simp [feedBlocks]
  | p :: ps, s => by
    intro h1 h2 h3 h4 h5
    simp only [List.length_cons, List.map_cons, List.sum_cons] at h1 h3 h4
    have hassert : s.totalBytesReceived + p.length < cfg.maxFileSize := by
      have : 0 ≤ (ps.map List.length).sum := Nat.zero_le _
      omega
    have hstep := step_nonfinal cfg s p h5 hassert (by omega) h2 (by omega)
    have IH := feedBlocks_running cfg ps
      { numOfBlocksRemaining := s.numOfBlocksRemaining - 1,
        currentBlockOffset := s.currentBlockOffset + 1,
        currentFileId := s.currentFileId,
        totalBytesReceived := s.totalBytesReceived + p.length,
        downloadedData := s.downloadedData ++ p }
      ((by omega : ps.length < s.numOfBlocksRemaining - 1))
      ((by omega : s.numOfBlocksRemaining - 1 ≤ UINT32_MOD))
      ((by omega : s.currentBlockOffset + 1 + ps.length < UINT32_MOD))
      ((by omega : s.totalBytesReceived + p.length + (ps.map List.length).sum < cfg.maxFileSize))
      h5
    rw [feedBlocks, hstep, Option.some_bind, IH, Option.map_some']
    dsimp only
    have e1 : s.numOfBlocksRemaining - 1 - ps.length
        = s.numOfBlocksRemaining - (p :: ps).length := by
      simp only [List.length_cons]; omega
    have e2 : s.currentBlockOffset + 1 + ps.length
        = s.currentBlockOffset + (p :: ps).length := by
      simp only [List.length_cons]; omega
    have e3 : s.totalBytesReceived + p.length + (ps.map List.length).sum
        = s.totalBytesReceived + ((p :: ps).map List.length).sum := by
      simp only [List.map_cons, List.sum_cons]; omega
    have e4 : s.downloadedData ++ p ++ ps.flatten
        = s.downloadedData ++ (p :: ps).flatten := by
      simp [List.append_assoc]
    have e5 : ({ fileId := s.currentFileId, blockSize := cfg.blockSize,
                 offset := s.currentBlockOffset + 1, numberOfBlocksRequested := 1 } : BlockRequest)
          :: (List.range ps.length).map
               (fun i => { fileId := s.currentFileId, blockSize := cfg.blockSize,
                           offset := s.currentBlockOffset + 1 + 1 + i,
                           numberOfBlocksRequested := 1 })
        = (List.range (p :: ps).length).map
            (fun i => { fileId := s.currentFileId, blockSize := cfg.blockSize,
                        offset := s.currentBlockOffset + 1 + i,
                        numberOfBlocksRequested := 1 }) := by
      simp only [List.length_cons, List.range_succ_eq_map, List.map_cons, List.map_map]
      refine List.cons_eq_cons.mpr ⟨by simp, ?_⟩
      refine List.map_congr_left fun i hi => ?_
      simp only [Function.comp_apply]
      congr 1
      omega
    rw [e1, e2, e3, e4]
    simp only [List.singleton_append]
    rw [e5]
    norm_num

theorem feedBlocks_complete (cfg : OtaConfig) :
    ∀ (ps : List (List Nat)) (s : OtaSession),
      0 < ps.length →
      ps.length = s.numOfBlocksRemaining →
      s.numOfBlocksRemaining ≤ UINT32_MOD →
      s.currentBlockOffset + ps.length < UINT32_MOD →
      s.totalBytesReceived + (ps.map List.length).sum < cfg.maxFileSize →
      cfg.maxFileSize ≤ UINT32_MOD →
      feedBlocks cfg s ps =
        some ({ numOfBlocksRemaining := 0,
                currentBlockOffset := s.currentBlockOffset + (ps.length - 1),
                currentFileId := s.currentFileId,
                totalBytesReceived := s.totalBytesReceived + (ps.map List.length).sum,
                downloadedData := s.downloadedData ++ ps.flatten },
              (List.range (ps.length - 1)).map
                (fun i => { fileId := s.currentFileId, blockSize := cfg.blockSize,
                            offset := s.currentBlockOffset + 1 + i,
                            numberOfBlocksRequested := 1 }),
              1)
  | [], s => by
    intro h0 _ _ _ _ _
    simp at h0
  | p :: ps, s => by
    intro h0 h1 h2 h3 h4 h5
    simp only [List.length_cons, List.map_cons, List.sum_cons] at h1 h3 h4
    cases ps with
    | nil =>
      simp only [List.length_nil, List.map_nil, List.sum_nil] at h1 h3 h4
      have hassert : s.totalBytesReceived + p.length < cfg.maxFileSize := by omega
      have hstep := step_final cfg s p h5 hassert (by omega)
      rw [feedBlocks, hstep, Option.some_bind, feedBlocks, Option.map_some']
      dsimp only
      simp
    | cons q qs =>
      simp only [List.length_cons, List.map_cons, List.sum_cons] at h1 h3 h4
      have hassert : s.totalBytesReceived + p.length < cfg.maxFileSize := by omega
      have hstep := step_nonfinal cfg s p h5 hassert (by omega) h2 (by omega)
      have IH := feedBlocks_complete cfg (q :: qs)
        { numOfBlocksRemaining := s.numOfBlocksRemaining - 1,
          currentBlockOffset := s.currentBlockOffset + 1,
          currentFileId := s.currentFileId,
          totalBytesReceived := s.totalBytesReceived + p.length,
          downloadedData := s.downloadedData ++ p }
        ((by simp : 0 < (q :: qs).length))
        ((by simp only [List.length_cons]; omega : (q :: qs).length = s.numOfBlocksRemaining - 1))
        ((by omega : s.numOfBlocksRemaining - 1 ≤ UINT32_MOD))
        ((by simp only [List.length_cons] at h3 ⊢; omega :
            s.currentBlockOffset + 1 + (q :: qs).length < UINT32_MOD))
        ((by simp only [List.map_cons, List.sum_cons] at h4 ⊢; omega :
            s.totalBytesReceived + p.length + ((q :: qs).map List.length).sum < cfg.maxFileSize))
        h5
      rw [feedBlocks, hstep, Option.some_bind, IH, Option.map_some']
      dsimp only
      have e1 : s.currentBlockOffset + 1 + ((q :: qs).length - 1)
          = s.currentBlockOffset + ((p :: q :: qs).length - 1) := by
        simp only [List.length_cons]; omega
      have e3 : s.totalBytesReceived + p.length + ((q :: qs).map List.length).sum
          = s.totalBytesReceived + ((p :: q :: qs).map List.length).sum := by
        simp only [List.map_cons, List.sum_cons]; omega
      have e4 : s.downloadedData ++ p ++ (q :: qs).flatten
          = s.downloadedData ++ (p :: q :: qs).flatten := by
        simp [List.append_assoc]
      have e5 : ({ fileId := s.currentFileId, blockSize := cfg.blockSize,
                   offset := s.currentBlockOffset + 1, numberOfBlocksRequested := 1 } : BlockRequest)
            :: (List.range ((q :: qs).length - 1)).map
                 (fun i => { fileId := s.currentFileId, blockSize := cfg.blockSize,
                             offset := s.currentBlockOffset + 1 + 1 + i,
                             numberOfBlocksRequested := 1 })
          = (List.range ((p :: q :: qs).length - 1)).map
              (fun i => { fileId := s.currentFileId, blockSize := cfg.blockSize,
                          offset := s.currentBlockOffset + 1 + i,
                          numberOfBlocksRequested := 1 }) := by
        simp only [List.length_cons, Nat.add_sub_cancel, List.range_succ_eq_map,
          List.map_cons, List.map_map]
        refine List.cons_eq_cons.mpr ⟨by simp, ?_⟩
        refine List.map_congr_left fun i hi => ?_
        simp only [Function.comp_apply]
        congr 1
        omega
      rw [e1, e3, e4]
      simp only [List.singleton_append]
      rw [e5]
      norm_num

/-- C1: the claim asks that an arrival overflowing the reassembly buffer be
rejected with a terminal Failed status report. In `ota_demo.c` the arrival
handler instead begins with `assert(totalBytesReceived + payloadLength <
CONFIG_MAX_FILE_SIZE)`: at a session holding 65535 bytes, a 2-byte block makes
the sum 65537, the assertion fails and the process aborts — the copy is indeed
never performed, but no failure status report exists in the code (the model
has no defined outcome, `none`). -/
theorem c1_overflow_arrival_aborts_without_failure_report :
    otaDemo_handleMqttStreamsBlockArrived demoConfig
      { numOfBlocksRemaining := 2, currentBlockOffset := 17, currentFileId := 7,
        totalBytesReceived := 65535, downloadedData := List.replicate 65535 0 }
      (List.replicate 2 0) = none := by
  unfold otaDemo_handleMqttStreamsBlockArrived
  rw [if_neg]
  simp [demoConfig, CONFIG_MAX_FILE_SIZE]

/-- Offsets of the initial request (block 0) followed by the follow-up
requests for blocks `1 + i`, `i < n`: exactly `0, 1, ..., n`. -/
theorem offsets_cons_range (fid B n : Nat) :
    (({ fileId := fid, blockSize := B, offset := 0, numberOfBlocksRequested := 1 } : BlockRequest)
      :: (List.range n).map
           (fun i => { fileId := fid, blockSize := B, offset := 1 + i,
                       numberOfBlocksRequested := 1 })).map BlockRequest.offset
    = List.range (n + 1) := by
  rw [List.range_succ_eq_map, List.map_cons, List.map_map]
  refine List.cons_eq_cons.mpr ⟨rfl, ?_⟩
  refine List.map_congr_left fun i hi => ?_
  simp [Function.comp, Nat.add_comm]

/-- C2: scenario `blockSize = 256`, `totalSize = 65536`. Initialisation
requests block 0 and sets the counter to 256; the first 255 full-size arrivals
are accepted and request offsets 1..255 (so all 256 requests, offsets 0..255
strictly increasing by one, are issued), but the 256th arrival hits
`assert(65280 + 256 < 65536)` — strict `<` — and aborts before the copy, so
completion never fires, against the claim that the 256th block is accepted
and the finish-download signal fires once. -/
theorem c2_256_block_scenario_aborts_on_final_block :
    applicationSuppliedFunction_processAfrOtaDocument demoConfig 7 65536
      = ({ numOfBlocksRemaining := 256, currentBlockOffset := 0, currentFileId := 7,
           totalBytesReceived := 0, downloadedData := [] },
         { fileId := 7, blockSize := 256, offset := 0, numberOfBlocksRequested := 1 })
    ∧ feedBlocks demoConfig
        { numOfBlocksRemaining := 256, currentBlockOffset := 0, currentFileId := 7,
          totalBytesReceived := 0, downloadedData := [] }
        (List.replicate 255 (List.replicate 256 0))
      = some ({ numOfBlocksRemaining := 1, currentBlockOffset := 255, currentFileId := 7,
                totalBytesReceived := 65280,
                downloadedData := (List.replicate 255 (List.replicate 256 (0:Nat))).flatten },
              (List.range 255).map
                (fun i => { fileId := 7, blockSize := 256, offset := 1 + i,
                            numberOfBlocksRequested := 1 }),
              0)
    ∧ (({ fileId := 7, blockSize := 256, offset := 0, numberOfBlocksRequested := 1 } : BlockRequest)
        :: (List.range 255).map
             (fun i => ({ fileId := 7, blockSize := 256, offset := 1 + i,
                          numberOfBlocksRequested := 1 } : BlockRequest))).map BlockRequest.offset
      = List.range 256
    ∧ otaDemo_handleMqttStreamsBlockArrived demoConfig
        { numOfBlocksRemaining := 1, currentBlockOffset := 255, currentFileId := 7,
          totalBytesReceived := 65280,
          downloadedData := (List.replicate 255 (List.replicate 256 (0:Nat))).flatten }
        (List.replicate 256 0) = none := by
  have hps : (List.replicate 255 (List.replicate 256 (0:Nat))).length = 255 :=
    List.length_replicate _ _
  have hsum : ((List.replicate 255 (List.replicate 256 (0:Nat))).map List.length).sum
      = 65280 := by
    rw [List.map_replicate, List.length_replicate, List.sum_replicate, smul_eq_mul]
  refine ⟨by decide, ?_, offsets_cons_range 7 256 255, ?_⟩
  · have h := feedBlocks_running demoConfig (List.replicate 255 (List.replicate 256 0))
      { numOfBlocksRemaining := 256, currentBlockOffset := 0, currentFileId := 7,
        totalBytesReceived := 0, downloadedData := [] }
      ((by rw [hps]; norm_num :
          (List.replicate 255 (List.replicate 256 (0:Nat))).length < 256))
      ((by rw [UINT32_MOD_eq]; norm_num : (256:Nat) ≤ UINT32_MOD))
      ((by rw [hps, UINT32_MOD_eq]; norm_num :
          0 + (List.replicate 255 (List.replicate 256 (0:Nat))).length < UINT32_MOD))
      ((by rw [hsum]; norm_num :
          0 + ((List.replicate 255 (List.replicate 256 (0:Nat))).map List.length).sum
            < 65536))
      ((by rw [UINT32_MOD_eq]; norm_num : (65536:Nat) ≤ UINT32_MOD))
    rw [h, hps, hsum]
    norm_num [demoConfig, CONFIG_BLOCK_SIZE]
  · unfold otaDemo_handleMqttStreamsBlockArrived
    dsimp only
    rw [List.length_replicate]
    rw [if_neg (by norm_num [demoConfig, CONFIG_MAX_FILE_SIZE] :
          ¬ ((65280:Nat) + 256 < demoConfig.maxFileSize))]

/-- C3 counterexample: the code never checks payload sizes against the block
size, so a run can reach completion with a byte count different from the total
size. With the demo configuration and `totalSize = 300` (two blocks), two
arrivals of one byte each decrement the counter to zero: completion is
signalled while the sum of accepted payload lengths is `2`, not `300`. -/
theorem c3_counterexample_short_payloads :
    (applicationSuppliedFunction_processAfrOtaDocument demoConfig 1 300).1.numOfBlocksRemaining = 2
    ∧ feedBlocks demoConfig (applicationSuppliedFunction_processAfrOtaDocument demoConfig 1 300).1
        [[9], [9]]
      = some ({ numOfBlocksRemaining := 0, currentBlockOffset := 1, currentFileId := 1,
                totalBytesReceived := 2, downloadedData := [9, 9] },
              [{ fileId := 1, blockSize := 256, offset := 1, numberOfBlocksRequested := 1 }],
              1)
    ∧ (2 : Nat) ≠ 300 := by
  refine ⟨by decide, by decide, by decide⟩

/-- C3 (amended): for every `blockSize > 0` and every `totalSize` with
`0 < totalSize < capacity` (`capacity ≤ 2^32`), initialisation sets the block
counter to `ceil(totalSize / blockSize)`, zeroes the byte counter and offset,
and requests block 0 with block-count 1; and in the run where block `i`
carries the well-sized payload `min blockSize (totalSize - i * blockSize)`,
the run completes with exactly one finish-download signal, the byte counter
equal to `totalSize` (the sum of the accepted payload lengths), and the total
number of block requests (the initial one plus one per non-final arrival)
equal to `ceil(totalSize / blockSize)`. -/
theorem c3_amended_session_accounting (B M fid F : Nat)
    (hB : 0 < B) (hF : 0 < F) (hFM : F < M) (hM : M ≤ UINT32_MOD) :
    applicationSuppliedFunction_processAfrOtaDocument ⟨B, M⟩ fid F
      = ({ numOfBlocksRemaining := ceilDiv F B, currentBlockOffset := 0,
           currentFileId := fid, totalBytesReceived := 0, downloadedData := [] },
         { fileId := fid, blockSize := B, offset := 0, numberOfBlocksRequested := 1 })
    ∧ ((expectedPayloads B F (ceilDiv F B)).map List.length).sum = F
    ∧ feedBlocks ⟨B, M⟩
        { numOfBlocksRemaining := ceilDiv F B, currentBlockOffset := 0,
          currentFileId := fid, totalBytesReceived := 0, downloadedData := [] }
        (expectedPayloads B F (ceilDiv F B))
      = some ({ numOfBlocksRemaining := 0, currentBlockOffset := ceilDiv F B - 1,
                currentFileId := fid, totalBytesReceived := F,
                downloadedData := (expectedPayloads B F (ceilDiv F B)).flatten },
              (List.range (ceilDiv F B - 1)).map
                (fun i => { fileId := fid, blockSize := B, offset := 1 + i,
                            numberOfBlocksRequested := 1 }),
              1)
    ∧ 1 + ((List.range (ceilDiv F B - 1)).map
            (fun i => ({ fileId := fid, blockSize := B, offset := 1 + i,
                         numberOfBlocksRequested := 1 } : BlockRequest))).length
      = ceilDiv F B := by
  have hn1 : 0 < ceilDiv F B := ceilDiv_pos F B hB hF
  have hnF : ceilDiv F B ≤ F := ceilDiv_le_self F B hB
  have hlen : (expectedPayloads B F (ceilDiv F B)).length = ceilDiv F B := by
    unfold expectedPayloads
    rw [List.length_map, List.length_range]
  have hsum : ((expectedPayloads B F (ceilDiv F B)).map List.length).sum = F := by
    unfold expectedPayloads
    rw [List.map_map]
    have hc : (List.length ∘ fun i => List.replicate (min B (F - i * B)) (0:Nat))
        = fun i => min B (F - i * B) := by
      funext i
      simp
    rw [hc, sum_min_blocks]
    exact Nat.min_eq_left (le_ceilDiv_mul F B hB)
  have hinit : applicationSuppliedFunction_processAfrOtaDocument ⟨B, M⟩ fid F
      = ({ numOfBlocksRemaining := ceilDiv F B, currentBlockOffset := 0,
           currentFileId := fid, totalBytesReceived := 0, downloadedData := [] },
         { fileId := fid, blockSize := B, offset := 0, numberOfBlocksRequested := 1 }) := by
    unfold applicationSuppliedFunction_processAfrOtaDocument
    dsimp only
    rw [blocks_eq_ceilDiv F B hB]
  refine ⟨hinit, hsum, ?_, ?_⟩
  · have h := feedBlocks_complete ⟨B, M⟩ (expectedPayloads B F (ceilDiv F B))
      { numOfBlocksRemaining := ceilDiv F B, currentBlockOffset := 0,
        currentFileId := fid, totalBytesReceived := 0, downloadedData := [] }
      ((by rw [hlen]; exact hn1 : 0 < (expectedPayloads B F (ceilDiv F B)).length))
      hlen
      ((le_trans hnF (le_trans (Nat.le_of_lt hFM) hM) : ceilDiv F B ≤ UINT32_MOD))
      ((by rw [hlen]; have := le_trans hnF (Nat.le_of_lt hFM); omega :
          0 + (expectedPayloads B F (ceilDiv F B)).length < UINT32_MOD))
      ((by rw [hsum]; omega :
          0 + ((expectedPayloads B F (ceilDiv F B)).map List.length).sum < M))
      hM
    rw [h, hlen, hsum]
    norm_num
  · rw [List.length_map, List.length_range]
    omega

/-- Witness for the amended C3: `blockSize = 4`, capacity `64`, file id `5`,
`totalSize = 10` (three blocks of sizes 4, 4, 2). -/
theorem c3_amended_session_accounting_witness :
    applicationSuppliedFunction_processAfrOtaDocument ⟨4, 64⟩ 5 10
      = ({ numOfBlocksRemaining := ceilDiv 10 4, currentBlockOffset := 0,
           currentFileId := 5, totalBytesReceived := 0, downloadedData := [] },
         { fileId := 5, blockSize := 4, offset := 0, numberOfBlocksRequested := 1 })
    ∧ ((expectedPayloads 4 10 (ceilDiv 10 4)).map List.length).sum = 10
    ∧ feedBlocks ⟨4, 64⟩
        { numOfBlocksRemaining := ceilDiv 10 4, currentBlockOffset := 0,
          currentFileId := 5, totalBytesReceived := 0, downloadedData := [] }
        (expectedPayloads 4 10 (ceilDiv 10 4))
      = some ({ numOfBlocksRemaining := 0, currentBlockOffset := ceilDiv 10 4 - 1,
                currentFileId := 5, totalBytesReceived := 10,
                downloadedData := (expectedPayloads 4 10 (ceilDiv 10 4)).flatten },
              (List.range (ceilDiv 10 4 - 1)).map
                (fun i => { fileId := 5, blockSize := 4, offset := 1 + i,
                            numberOfBlocksRequested := 1 }),
              1)
    ∧ 1 + ((List.range (ceilDiv 10 4 - 1)).map
            (fun i => ({ fileId := 5, blockSize := 4, offset := 1 + i,
                         numberOfBlocksRequested := 1 } : BlockRequest))).length
      = ceilDiv 10 4 :=
  c3_amended_session_accounting 4 64 5 10 (by norm_num) (by norm_num) (by norm_num)
    (by rw [UINT32_MOD_eq]; norm_num)

/-- When the stored thing name and the suffix fit their local buffers and the
assembled expected topic is not truncated, a candidate equal to
`"$aws/things/" ++ thingName ++ suffix` matches. -/
theorem isThingnameTopicMatch_of_eq (tn t suffix : List Char)
    (htn : tn ≠ []) (htnl : tn.length + 1 ≤ MAX_THING_NAME_LENGTH + 1)
    (hsuf : suffix.length + 1 ≤ MAX_JOB_ID_LENGTH + 1)
    (hexp : ("$aws/things/".toList ++ tn ++ suffix).length ≤ TOPIC_BUFFER_SIZE - 1)
    (heq : "$aws/things/".toList ++ tn ++ suffix = t) :
    isThingnameTopicMatch tn (some t) suffix = some true := by
  subst heq
  have hf1 : fixedCStr (MAX_THING_NAME_LENGTH + 1) tn = some tn := by
    unfold fixedCStr; rw [if_pos htnl]
  have hf2 : fixedCStr (MAX_JOB_ID_LENGTH + 1) suffix = some suffix := by
    unfold fixedCStr; rw [if_pos hsuf]
  have hP : ("$aws/things/".toList).length = 12 := by decide
  unfold isThingnameTopicMatch
  dsimp only
  rw [if_neg (by simp only [List.length_append]; omega)]
  rw [if_neg (by simp only [List.isEmpty_iff]; exact htn)]
  rw [hf1]
  dsimp only
  rw [hf2]
  dsimp only
  unfold snprintfTrunc
  rw [List.take_of_length_le hexp]
  simp

/-- When the stored thing name and the suffix fit their local buffers and the
assembled expected topic is not truncated, a candidate different from
`"$aws/things/" ++ thingName ++ suffix` does not match. -/
theorem isThingnameTopicMatch_of_ne (tn t suffix : List Char)
    (htn : tn ≠ []) (htnl : tn.length + 1 ≤ MAX_THING_NAME_LENGTH + 1)
    (hsuf : suffix.length + 1 ≤ MAX_JOB_ID_LENGTH + 1)
    (hexp : ("$aws/things/".toList ++ tn ++ suffix).length ≤ TOPIC_BUFFER_SIZE - 1)
    (hne : "$aws/things/".toList ++ tn ++ suffix ≠ t) :
    isThingnameTopicMatch tn (some t) suffix = some false := by
  have hf1 : fixedCStr (MAX_THING_NAME_LENGTH + 1) tn = some tn := by
    unfold fixedCStr; rw [if_pos htnl]
  have hf2 : fixedCStr (MAX_JOB_ID_LENGTH + 1) suffix = some suffix := by
    unfold fixedCStr; rw [if_pos hsuf]
  unfold isThingnameTopicMatch
  dsimp only
  by_cases ht0 : t.length = 0
  · rw [if_pos ht0]
  · rw [if_neg ht0]
    rw [if_neg (by simp only [List.isEmpty_iff]; exact htn)]
    rw [hf1]
    dsimp only
    rw [hf2]
    dsimp only
    unfold snprintfTrunc
    rw [List.take_of_length_le hexp]
    simp only [Option.some.injEq]
    rw [Bool.and_eq_false_iff]
    right
    exact beq_eq_false_iff_ne.mpr hne

/-- C4: for valid (non-empty, at most `MAX_THING_NAME_LENGTH`-byte) device
identities, building the start-next topic for the stored identity and
appending `"/accepted"` yields a topic that `coreJobs_isStartNextAccepted`
accepts; built for any other identity (same or different length), the topic is
rejected. -/
theorem c4_start_next_roundtrip (stored other : List Char)
    (h1 : stored ≠ []) (h2 : stored.length ≤ MAX_THING_NAME_LENGTH)
    (h3 : other ≠ []) (h4 : other.length ≤ MAX_THING_NAME_LENGTH) :
    coreJobs_isStartNextAccepted stored
      (some (getStartNextPendingJobExecutionTopic (some stored) TOPIC_BUFFER_SIZE
             ++ "/accepted".toList)) = some true
    ∧ (stored ≠ other →
       coreJobs_isStartNextAccepted stored
         (some (getStartNextPendingJobExecutionTopic (some other) TOPIC_BUFFER_SIZE
                ++ "/accepted".toList)) = some false) := by
  have hP : ("$aws/things/".toList).length = 12 := by decide
  have hSA : ("/jobs/start-next/accepted".toList).length = 25 := by decide
  have hML : MAX_THING_NAME_LENGTH = 128 := rfl
  have hTB : TOPIC_BUFFER_SIZE = 256 := rfl
  rw [hML] at h2 h4
  have hbuild : ∀ d : List Char, d ≠ [] → d.length ≤ 128 →
      getStartNextPendingJobExecutionTopic (some d) TOPIC_BUFFER_SIZE
        ++ "/accepted".toList
      = "$aws/things/".toList ++ d ++ "/jobs/start-next/accepted".toList := by
    intro d hd hdl
    unfold getStartNextPendingJobExecutionTopic
    dsimp only
    rw [if_pos ⟨List.length_pos.mpr hd, by rw [hTB]; omega⟩]
    rw [List.append_assoc ("$aws/things/".toList ++ d)]
    congr 1
  constructor
  · exact isThingnameTopicMatch_of_eq stored _ _ h1 (by rw [hML]; omega)
      (by decide)
      (by simp only [List.length_append, hP, hSA]; rw [hTB]; omega)
      (hbuild stored h1 h2).symm
  · intro hne
    refine isThingnameTopicMatch_of_ne stored _ _ h1 (by rw [hML]; omega)
      (by decide)
      (by simp only [List.length_append, hP, hSA]; rw [hTB]; omega) ?_
    rw [hbuild other h3 h4]
    intro hcontra
    exact hne (List.append_cancel_left (List.append_cancel_right hcontra))
/-- Witness for C4 at the unit test's identities `"thingname"` (stored) and
`"different"` (another device of the same length). -/
theorem c4_start_next_roundtrip_witness :
    coreJobs_isStartNextAccepted "thingname".toList
      (some (getStartNextPendingJobExecutionTopic (some "thingname".toList) TOPIC_BUFFER_SIZE
             ++ "/accepted".toList)) = some true
    ∧ coreJobs_isStartNextAccepted "thingname".toList
        (some (getStartNextPendingJobExecutionTopic (some "different".toList) TOPIC_BUFFER_SIZE
               ++ "/accepted".toList)) = some false :=
  ⟨(c4_start_next_roundtrip "thingname".toList "different".toList (by decide) (by decide)
      (by decide) (by decide)).1,
   (c4_start_next_roundtrip "thingname".toList "different".toList (by decide) (by decide)
      (by decide) (by decide)).2 (by decide)⟩

/-- C5: from the no-active-job state (all-zero `globalJobId`), the first
start-next acceptance records the job id and returns the external handler's
result; a second acceptance with a different job id while the first is still
recorded is ignored — it returns `false` and leaves the stored job id equal to
the first job id. -/
theorem c5_second_accept_ignored (j1 j2 : List Char) (doc1 doc2 : Bool)
    (h1 : j1 ≠ []) (h2 : j1.length ≤ MAX_JOB_ID_LENGTH) (h3 : j1 ≠ j2) :
    otaDemo_handleJobsStartNextAccepted { globalJobId := [] } j1 doc1
      = some ({ globalJobId := j1 }, doc1)
    ∧ otaDemo_handleJobsStartNextAccepted { globalJobId := j1 } j2 doc2
      = some ({ globalJobId := j1 }, false) := by
  constructor
  · unfold otaDemo_handleJobsStartNextAccepted
    dsimp only
    rw [if_pos (by decide : ([] : List Char).isEmpty = true), if_pos h2]
  · unfold otaDemo_handleJobsStartNextAccepted
    dsimp only
    rw [if_neg (by simp only [List.isEmpty_iff]; exact h1)]

/-- Witness for C5 with job ids `"job-1"` and `"job-2"`. -/
theorem c5_second_accept_ignored_witness :
    otaDemo_handleJobsStartNextAccepted { globalJobId := [] } "job-1".toList true
      = some ({ globalJobId := "job-1".toList }, true)
    ∧ otaDemo_handleJobsStartNextAccepted { globalJobId := "job-1".toList } "job-2".toList true
      = some ({ globalJobId := "job-1".toList }, false) :=
  c5_second_accept_ignored "job-1".toList "job-2".toList true true
    (by decide) (by decide) (by decide)

/-- C6: for every declared status and every non-empty version that fits the
destination (`bufferSize >= 34 + lengths`), `getUpdateJobExecutionMsg`
produces exactly
`\x7b"status":"<STATUS>","expectedVersion":"<version>"\x7d`; it returns the
zero-length result when the version is NULL or empty or the capacity is
insufficient. -/
theorem c6_update_message_format (st : JobStatus) (v : List Char) (cap : Nat)
    (hv : v ≠ []) (hcap : 34 + v.length + (JobStatus.text st).length ≤ cap) :
    getUpdateJobExecutionMsg st.toIndex (some v) cap
      = some ("\x7b\"status\":\"".toList ++ JobStatus.text st ++
              "\",\"expectedVersion\":\"".toList ++ v ++ "\"\x7d".toList)
    ∧ getUpdateJobExecutionMsg st.toIndex (some []) cap = some []
    ∧ getUpdateJobExecutionMsg st.toIndex none cap = some []
    ∧ (∀ cap2 : Nat, cap2 < 34 + v.length + (JobStatus.text st).length →
        getUpdateJobExecutionMsg st.toIndex (some v) cap2 = some []) := by
  have hget : jobStatusStrings.get? st.toIndex = some (JobStatus.text st) := by
    cases st <;> rfl
  refine ⟨?_, ?_, rfl, ?_⟩
  · unfold getUpdateJobExecutionMsg
    dsimp only
    rw [if_neg (by simp only [List.length_eq_zero]; exact hv), hget]
    dsimp only
    rw [if_pos hcap]
  · unfold getUpdateJobExecutionMsg
    dsimp only
    rw [if_pos (by decide : ([] : List Char).length = 0)]
  · intro cap2 hcap2
    unfold getUpdateJobExecutionMsg
    dsimp only
    rw [if_neg (by simp only [List.length_eq_zero]; exact hv), hget]
    dsimp only
    rw [if_neg (by omega)]

/-- Witness for C6: the spec's round-trip example
`buildUpdateMessage(Succeeded, "1.0.1")` at the caller's buffer size
`UPDATE_JOB_MSG_LENGTH = 48`. -/
theorem c6_update_message_format_witness :
    getUpdateJobExecutionMsg JobStatus.Succeeded.toIndex (some "1.0.1".toList) 48
      = some "\x7b\"status\":\"SUCCEEDED\",\"expectedVersion\":\"1.0.1\"\x7d".toList :=
  ((c6_update_message_format JobStatus.Succeeded "1.0.1".toList 48
      (by decide) (by decide)).1).trans (by decide)

/-- C7 counterexample: `getUpdateJobExecutionMsg` never range-checks the
status enumeration; with a valid one-byte version and status value 5 (just
past the declared 0..4 range) its guard reads `jobStatusStringLengths[5]`
outside the table, so instead of returning a zero-length result the C program
has no defined result at all (`none` in the model). -/
theorem c7_counterexample_status_out_of_range :
    getUpdateJobExecutionMsg 5 (some "1".toList) 48 = none := by decide

/-- C7 (amended): the three string builders return the zero-length result and
write nothing on a NULL or empty input or insufficient capacity, and so does
the update-message builder for NULL/empty versions and insufficient capacity;
but the update-message builder does not check the status enumeration: for a
status outside 0..4 with an otherwise valid version it performs an unchecked
out-of-bounds table read (no defined result) instead of returning zero
length. -/
theorem c7_amended_builder_failure_policy :
    (∀ cap, getStartNextPendingJobExecutionTopic none cap = [])
    ∧ (∀ (tn : List Char) cap, tn.length = 0 ∨ cap < 28 + tn.length →
        getStartNextPendingJobExecutionTopic (some tn) cap = [])
    ∧ (∀ cap, getStartNextPendingJobExecutionMsg none cap = [])
    ∧ (∀ (ct : List Char) cap, ct.length = 0 ∨ cap < 18 + ct.length →
        getStartNextPendingJobExecutionMsg (some ct) cap = [])
    ∧ (∀ (jid : Option (List Char)) cap, getUpdateJobExecutionTopic none jid cap = [])
    ∧ (∀ (tn : List Char) cap, getUpdateJobExecutionTopic (some tn) none cap = [])
    ∧ (∀ (tn jid : List Char) cap,
        tn.length = 0 ∨ jid.length = 0 ∨ cap < 25 + tn.length + jid.length →
        getUpdateJobExecutionTopic (some tn) (some jid) cap = [])
    ∧ (∀ st cap, getUpdateJobExecutionMsg st none cap = some [])
    ∧ (∀ st (v : List Char) cap, v.length = 0 →
        getUpdateJobExecutionMsg st (some v) cap = some [])
    ∧ (∀ st (v : List Char) cap s, jobStatusStrings.get? st = some s → v ≠ [] →
        cap < 34 + v.length + s.length →
        getUpdateJobExecutionMsg st (some v) cap = some [])
    ∧ (∀ st (v : List Char) cap, 5 ≤ st → v ≠ [] →
        getUpdateJobExecutionMsg st (some v) cap = none) := by
  refine ⟨fun cap => rfl, ?_, fun cap => rfl, ?_, fun jid cap => rfl,
          fun tn cap => rfl, ?_, fun st cap => rfl, ?_, ?_, ?_⟩
  · intro tn cap h
    unfold getStartNextPendingJobExecutionTopic
    dsimp only
    rw [if_neg (by omega)]
  · intro ct cap h
    unfold getStartNextPendingJobExecutionMsg
    dsimp only
    rw [if_neg (by omega)]
  · intro tn jid cap h
    unfold getUpdateJobExecutionTopic
    dsimp only
    rw [if_neg (by omega)]
  · intro st v cap h
    unfold getUpdateJobExecutionMsg
    dsimp only
    rw [if_pos h]
  · intro st v cap s hs hv hcap
    unfold getUpdateJobExecutionMsg
    dsimp only
    rw [if_neg (by simp only [List.length_eq_zero]; exact hv), hs]
    dsimp only
    rw [if_neg (by omega)]
  · intro st v cap hst hv
    unfold getUpdateJobExecutionMsg
    dsimp only
    rw [if_neg (by simp only [List.length_eq_zero]; exact hv)]
    have hnone : jobStatusStrings.get? st = none := by
      refine List.get?_eq_none.mpr ?_
      have hlen5 : jobStatusStrings.length = 5 := rfl
      omega
    rw [hnone]

/-- Witness for the amended C7: an empty thing name, a too-small message
buffer, a too-small update-topic buffer, an empty version, and an
out-of-range status, each at a concrete input. -/
theorem c7_amended_builder_failure_policy_witness :
    getStartNextPendingJobExecutionTopic (some []) 256 = []
    ∧ getStartNextPendingJobExecutionMsg (some "clientToken".toList) 10 = []
    ∧ getUpdateJobExecutionTopic (some "thingname".toList) (some "job-id".toList) 30 = []
    ∧ getUpdateJobExecutionMsg 2 (some []) 48 = some []
    ∧ getUpdateJobExecutionMsg 7 (some "1".toList) 48 = none := by
  obtain ⟨p1, p2, p3, p4, p5, p6, p7, p8, p9, p10, p11⟩ :=
    c7_amended_builder_failure_policy
  exact ⟨p2 [] 256 (Or.inl rfl),
         p4 "clientToken".toList 10 (Or.inr (by decide)),
         p7 "thingname".toList "job-id".toList 30 (Or.inr (Or.inr (by decide))),
         p9 2 [] 48 rfl,
         p11 7 "1".toList 48 (by decide) (by decide)⟩

/-- C8: the claim quantifies over every job id, but already for a 50-byte job
id (well within `MAX_JOB_ID_LENGTH = 64`) the matcher memcpy's the 72-byte
suffix `"/jobs/<jobId>/update/accepted"` into its 65-byte
(`MAX_JOB_ID_LENGTH + 1`) local buffer — an out-of-bounds write, so even on
the byte-for-byte matching topic, where the claim requires `true`, the C
program has no defined result (`none` in the model). -/
theorem c8_long_job_id_overflows_matcher_suffix_buffer :
    coreJobs_isJobUpdateStatus "thingname".toList
      (some ("$aws/things/thingname/jobs/".toList ++ List.replicate 50 'j'
             ++ "/update/accepted".toList))
      (List.replicate 50 'j') 0 = none := by decide

/-- C9: the router offers the message to the jobs dispatcher first and — by
the short-circuit of `handled || ...` — to the streams dispatcher only when
the jobs dispatcher did not handle it; the returned boolean is true exactly
when one of the two handled the message. -/
theorem c9_router_order_and_result
    (coreJobsHandler mqttStreamsHandler : List Char → List Nat → Bool)
    (topic : List Char) (message : List Nat) :
    (otaDemo_handleIncomingMQTTMessage coreJobsHandler mqttStreamsHandler
        topic message).1
      = (coreJobsHandler topic message || mqttStreamsHandler topic message)
    ∧ (otaDemo_handleIncomingMQTTMessage coreJobsHandler mqttStreamsHandler
        topic message).2
      = (if coreJobsHandler topic message then [OtaDispatcher.jobs]
         else [OtaDispatcher.jobs, OtaDispatcher.streams]) := by
  unfold otaDemo_handleIncomingMQTTMessage
  rcases Bool.eq_false_or_eq_true (coreJobsHandler topic message) with h | h <;>
    simp [h]

/-- C10: the two unchecked local-buffer writes of `coreJobs_isJobUpdateStatus`
(the job id into `char[MAX_JOB_ID_LENGTH + 1]`, the status word selected by an
unchecked index into the two-entry `jobUpdateStatusString` table into
`char[UPDATE_JOB_STATUS_MAX_LENGTH + 1]`) are in bounds exactly under the
preconditions `jobIdLength ≤ MAX_JOB_ID_LENGTH` and `expectedStatus < 2`: any
larger job id length or out-of-range status reaches the out-of-bounds access
(no defined result), and under the preconditions both local copies are
defined. -/
theorem c10_job_update_status_preconditions :
    (∀ (tn : List Char) (topic : Option (List Char)) (jid : List Char) (st : Nat),
       MAX_JOB_ID_LENGTH < jid.length ∨ 2 ≤ st →
       coreJobs_isJobUpdateStatus tn topic jid st = none)
    ∧ (∀ jid : List Char, jid.length ≤ MAX_JOB_ID_LENGTH →
        fixedCStr (MAX_JOB_ID_LENGTH + 1) jid = some jid)
    ∧ (∀ st : Nat, st < 2 →
        ∃ s, jobUpdateStatusStrings.get? st = some s
          ∧ fixedCStr (UPDATE_JOB_STATUS_MAX_LENGTH + 1) s = some s) := by
  refine ⟨?_, ?_, ?_⟩
  · intro tn topic jid st h
    unfold coreJobs_isJobUpdateStatus
    rcases h with h | h
    · have hnone : fixedCStr (MAX_JOB_ID_LENGTH + 1) jid = none := by
        unfold fixedCStr
        rw [if_neg (by omega)]
      rw [hnone]
    · cases hf : fixedCStr (MAX_JOB_ID_LENGTH + 1) jid with
      | none => rfl
      | some j =>
        have hnone : jobUpdateStatusStrings.get? st = none := by
          refine List.get?_eq_none.mpr ?_
          have hlen2 : jobUpdateStatusStrings.length = 2 := rfl
          omega
        rw [hnone]
  · intro jid h
    unfold fixedCStr
    rw [if_pos (by omega)]
  · intro st h
    match st, h with
    | 0, _ => exact ⟨"accepted".toList, rfl, by decide⟩
    | 1, _ => exact ⟨"rejected".toList, rfl, by decide⟩

/-- Witness for C10: a 65-byte job id is rejected as undefined behaviour, and
the unit test's job id `"job-id"` fits the terminated local buffer. -/
theorem c10_job_update_status_preconditions_witness :
    coreJobs_isJobUpdateStatus "thingname".toList none (List.replicate 65 'a') 0 = none
    ∧ fixedCStr (MAX_JOB_ID_LENGTH + 1) "job-id".toList = some "job-id".toList := by
  obtain ⟨p1, p2, p3⟩ := c10_job_update_status_preconditions
  exact ⟨p1 "thingname".toList none (List.replicate 65 'a') 0 (Or.inl (by decide)),
         p2 "job-id".toList (by decide)⟩
